import Mathlib

/-!
Verification development for the `qdrant_qwen` repository.

Shallow embedding of the decision logic of four source files:

* `src/embedding_service.py` — the embedding resolution pipeline
  (`get_embeddings`, `deterministic_embedding`, `create_embedding`);
* `src/openai_compatible_api.py` — the quantized-hash fallback
  (`get_fallback_embeddings`);
* `src/qdrant_mcp_server.py` and `src/localai_mcp_server.py` — the two
  stdio JSON-RPC dispatchers (`handle_request`, `main` loop) and the
  vector-insertion logic (`insert_vectors`).

Modelling conventions:

* Python JSON values are the inductive `JValue`; a Python `dict` coming
  from `json.loads` is `JValue.obj` with an association list.
* External HTTP interactions (aiohttp / requests calls) are abstracted as
  parameters giving the *outcome* of the interaction: `Except String JValue`
  models "the try-body either produced a value or raised an exception with
  message `e`".  The control flow around these outcomes (the `try/except`
  boundaries, dispatch tables, fallback selection) is translated from the
  source line by line.
* `hashlib.md5(...).hexdigest()` is abstracted as a function
  `String → List (Fin 16)` (a list of hex characters); `np.random.seed` /
  `np.random.normal` are abstracted as functions of the seed (the global
  numpy RNG state is threaded explicitly as a `Nat` so that the
  reseed-then-draw discipline of the source is visible).
* Python float arithmetic is modelled with exact numbers (`ℚ` where the
  source only adds/divides rationals, `ℝ` where it takes square roots).
  The one place where IEEE semantics differs observably — division by a
  zero norm — is modelled by the `PFloat` type, whose division `fdiv`
  produces `nan`/`inf` exactly when IEEE division of finite floats does.
-/

/-! ## JSON values (the result of Python `json.loads`) -/

/-- A parsed JSON value, as produced by Python `json.loads`. -/
inductive JValue where
  | null
  | bool (b : Bool)
  | num (q : ℚ)
  | str (s : String)
  | arr (elems : List JValue)
  | obj (fields : List (String × JValue))

/-- Python `dict.get(key, default)` on a parsed JSON object. -/
def jget (fields : List (String × JValue)) (key : String) (dflt : JValue) : JValue :=
  match fields.find? (fun p => p.1 == key) with
  | some p => p.2
  | none => dflt

/-- Python `str()` rendering as used by the f-string
`f"Unknown method: {method}"`.  Exact for strings (the only case the
dispatch tables can match and the only case any theorem below exercises);
renderings of the other constructors are coarse approximations. -/
def jPyStr : JValue → String
  | .str s => s
  | .null => "None"
  | .bool true => "True"
  | .bool false => "False"
  | .num q => toString q
  | .arr _ => "<arr>"
  | .obj _ => "<obj>"

/-- Python attribute access `params.get(key, default)` *as an expression that
can raise*: on a non-dict value, `.get` raises `AttributeError` (message
abstracted), which the dispatch boundary converts to an error response. -/
def pyGet (params : JValue) (key : String) (dflt : JValue) : Except String JValue :=
  match params with
  | .obj fields => .ok (jget fields key dflt)
  | _ => .error "AttributeError"

/-- A handler-internal `try: ... except Exception as e: return {'error': pfx + str(e)}`
block: `outcome` is the result of the try-body (ok value, or raised message). -/
def pyTry (outcome : Except String JValue) (pfx : String) : JValue :=
  match outcome with
  | .ok v => v
  | .error e => .obj [("error", .str (pfx ++ e))]

/-- The dispatch-boundary `try: ... except Exception as e: return {'error': str(e)}`
of `handle_request` (qdrant_mcp_server.py:20,35-36; localai_mcp_server.py:19,30-31). -/
def pyCatch (body : Except String JValue) : JValue :=
  match body with
  | .ok v => v
  | .error e => .obj [("error", .str e)]

/-! ## Qdrant MCP server (`src/qdrant_mcp_server.py`) -/

namespace QdrantMCP

/-- Outcomes of the six handlers' try-bodies (each is one aiohttp
request/response plus response-dict construction, abstracted as its result).
Handlers whose try-body reads arguments take them as inputs. -/
structure Outcomes where
  health : Except String JValue
  collections : Except String JValue
  createCollection : JValue → Except String JValue
  insertVectors : JValue → JValue → Except String JValue
  search : JValue → JValue → Except String JValue
  collectionsInfo : Except String JValue

/-- `health_check` (qdrant_mcp_server.py:38-51): try-body abstracted as
`o.health`, except-clause returns `{'error': 'Health check failed: ' + str(e)}`. -/
def health_check (o : Outcomes) : JValue :=
  pyTry o.health "Health check failed: "

/-- `list_collections` (qdrant_mcp_server.py:53-64). -/
def list_collections (o : Outcomes) : JValue :=
  pyTry o.collections "List collections failed: "

/-- `create_collection` (qdrant_mcp_server.py:66-84). -/
def create_collection (o : Outcomes) (collection_name : JValue) : JValue :=
  pyTry (o.createCollection collection_name) "Create collection failed: "

/-- `insert_vectors` (qdrant_mcp_server.py:86-111), at the JSON level used by
the dispatcher; the typed model of its point construction is
`QdrantMCP.insert_vectors` below. -/
def insert_vectors_rpc (o : Outcomes) (vectors metadata : JValue) : JValue :=
  pyTry (o.insertVectors vectors metadata) "Insert vectors failed: "

/-- `search_vectors` (qdrant_mcp_server.py:113-133). -/
def search_vectors (o : Outcomes) (query_vector limit : JValue) : JValue :=
  pyTry (o.search query_vector limit) "Search vectors failed: "

/-- `get_collections_info` (qdrant_mcp_server.py:135-146). -/
def get_collections_info (o : Outcomes) : JValue :=
  pyTry o.collectionsInfo "Get collections info failed: "

/-- `QdrantMCPServer.handle_request` (qdrant_mcp_server.py:19-36): the
method→handler if/elif chain inside a dispatch-boundary try/except.
`method` is the raw value of `request.get('method','')` (a non-string never
equals any table entry, so it reaches the unknown-method case, rendered with
Python `str()`). Argument extraction `params.get(...)` happens inside the
boundary try and raises on a non-dict `params`. -/
def handle_request (o : Outcomes) (method : JValue) (params : JValue) : JValue :=
  pyCatch (match method with
    | .str s =>
      if s = "qdrant_health" then pure (health_check o)
      else if s = "qdrant_collections" then pure (list_collections o)
      else if s = "qdrant_create_collection" then do
        let cn ← pyGet params "collection_name" (.str "ai_communication_vectors")
        pure (create_collection o cn)
      else if s = "qdrant_insert_vectors" then do
        let vs ← pyGet params "vectors" (.arr [])
        let md ← pyGet params "metadata" (.arr [])
        pure (insert_vectors_rpc o vs md)
      else if s = "qdrant_search" then do
        let qv ← pyGet params "query_vector" (.arr [])
        let lim ← pyGet params "limit" (.num 5)
        pure (search_vectors o qv lim)
      else if s = "qdrant_collections_info" then pure (get_collections_info o)
      else pure (.obj [("error", .str ("Unknown method: " ++ s))])
    | m => pure (.obj [("error", .str ("Unknown method: " ++ jPyStr m))]))

/-- The six method names of the dispatcher's table (qdrant_mcp_server.py:21-32). -/
def methodNames : List String :=
  ["qdrant_health", "qdrant_collections", "qdrant_create_collection",
   "qdrant_insert_vectors", "qdrant_search", "qdrant_collections_info"]

end QdrantMCP

/-! ## LocalAI MCP server (`src/localai_mcp_server.py`) -/

namespace LocalAIMCP

/-- Outcomes of the four handlers' try-bodies. -/
structure Outcomes where
  health : Except String JValue
  generate : JValue → Except String JValue
  generateSingle : JValue → Except String JValue
  models : Except String JValue

/-- `health_check` (localai_mcp_server.py:33-46). -/
def health_check (o : Outcomes) : JValue :=
  pyTry o.health "Health check failed: "

/-- `generate_embeddings` (localai_mcp_server.py:48-63). -/
def generate_embeddings (o : Outcomes) (texts : JValue) : JValue :=
  pyTry (o.generate texts) "Generate embeddings failed: "

/-- `generate_single_embedding` (localai_mcp_server.py:65-80). -/
def generate_single_embedding (o : Outcomes) (text : JValue) : JValue :=
  pyTry (o.generateSingle text) "Generate single embedding failed: "

/-- `get_models` (localai_mcp_server.py:82-94). -/
def get_models (o : Outcomes) : JValue :=
  pyTry o.models "Get models failed: "

/-- `LocalAIMCPServer.handle_request` (localai_mcp_server.py:18-31). -/
def handle_request (o : Outcomes) (method : JValue) (params : JValue) : JValue :=
  pyCatch (match method with
    | .str s =>
      if s = "embedding_health" then pure (health_check o)
      else if s = "embedding_generate" then do
        let ts ← pyGet params "texts" (.arr [])
        pure (generate_embeddings o ts)
      else if s = "embedding_generate_single" then do
        let t ← pyGet params "text" (.str "")
        pure (generate_single_embedding o t)
      else if s = "embedding_models" then pure (get_models o)
      else pure (.obj [("error", .str ("Unknown method: " ++ s))])
    | m => pure (.obj [("error", .str ("Unknown method: " ++ jPyStr m))]))

/-- The four method names of the dispatcher's table (localai_mcp_server.py:20-27). -/
def methodNames : List String :=
  ["embedding_health", "embedding_generate", "embedding_generate_single",
   "embedding_models"]

end LocalAIMCP

/-! ## The stdio dispatcher loop (`main` of both MCP servers)

The two `main` loops (qdrant_mcp_server.py:148-182, localai_mcp_server.py:96-130)
are textually identical up to the server object; `mcpMainLoop` is the common
translation, instantiated below for each server.

* The input is the list of lines `sys.stdin.readline` yields, in order; the
  end of the list is end-of-stream, and the empty string is the EOF sentinel
  (`if not line: break`).
* `json.loads(line.strip())` is abstracted as `parse : String → Option JValue`
  (`none` = `json.JSONDecodeError`, which the loop's first except-clause turns
  into `continue`: no output line, keep reading).
* A parsed non-object makes `request.get('method','')` raise `AttributeError`,
  which the loop's second except-clause turns into the transport-level error
  response `{'jsonrpc':'2.0','id':None,'error':{'message':...}}`.
* Output lines are modelled as the `JValue` objects they serialize
  (`print(json.dumps(response))`). -/

/-- The dispatcher's read/parse/dispatch/respond loop. -/
def mcpMainLoop (parse : String → Option JValue)
    (handle : JValue → JValue → JValue) : List String → List JValue
  | [] => []
  | line :: rest =>
    if line = "" then []
    else
      match parse line with
      | none => mcpMainLoop parse handle rest
      | some req =>
        match req with
        | .obj fields =>
          .obj [("jsonrpc", .str "2.0"), ("id", jget fields "id" .null),
                ("result", handle (jget fields "method" (.str ""))
                                  (jget fields "params" (.obj [])))]
            :: mcpMainLoop parse handle rest
        | _ =>
          .obj [("jsonrpc", .str "2.0"), ("id", .null),
                ("error", .obj [("message", .str "AttributeError")])]
            :: mcpMainLoop parse handle rest

/-- `main` of qdrant_mcp_server.py (lines 148-182). -/
def qdrant_main (parse : String → Option JValue) (o : QdrantMCP.Outcomes) :
    List String → List JValue :=
  mcpMainLoop parse (QdrantMCP.handle_request o)

/-- `main` of localai_mcp_server.py (lines 96-130). -/
def localai_main (parse : String → Option JValue) (o : LocalAIMCP.Outcomes) :
    List String → List JValue :=
  mcpMainLoop parse (LocalAIMCP.handle_request o)

/-! ## Typed model of `QdrantMCPServer.insert_vectors` (qdrant_mcp_server.py:86-111)

At the typed level (vectors as lists of rationals, metadata dicts as
association lists), recording what the decision logic of the function
computes: the point list sent in the HTTP `PUT` body and the
`inserted_count` field of the returned response dict.  The HTTP interaction
itself and the timestamp are outside the model. -/

/-- One element of the `points` list built at qdrant_mcp_server.py:91-97. -/
structure QPoint where
  id : Nat
  vector : List ℚ
  payload : List (String × JValue)

/-- What `insert_vectors` computes before/around its HTTP call:
`points` is the payload of the `PUT` (lines 91-99), `inserted_count` the
count reported in the response dict (line 104).  `metadata = none` models
the Python `None` default (line 88-89 replaces it by `[{}] * len(vectors)`). -/
structure InsertResult where
  points : List QPoint
  inserted_count : Nat
  collection : String

/-- `QdrantMCPServer.insert_vectors` (qdrant_mcp_server.py:86-111). -/
def QdrantMCP.insert_vectors (vectors : List (List ℚ))
    (metadata : Option (List (List (String × JValue)))) : InsertResult :=
  let md := match metadata with
    | none => List.replicate vectors.length []
    | some m => m
  { points := (vectors.zip md).enum.map
      (fun p => { id := p.1 + 1, vector := p.2.1, payload := p.2.2 }),
    inserted_count := vectors.length,
    collection := "ai_communication_vectors" }

/-- The dispatcher's call site (qdrant_mcp_server.py:27-28) at the typed
level: `params.get('vectors', [])` and `params.get('metadata', [])`.
The outer `Option` is key presence; for `metadata` the inner `Option` is
the Python value (`none` = JSON `null` = Python `None`).  An absent
`metadata` key yields the default `[]`, i.e. `some []` — an empty list,
not `None`. -/
def QdrantMCP.dispatch_insert (pvectors : Option (List (List ℚ)))
    (pmetadata : Option (Option (List (List (String × JValue))))) : InsertResult :=
  QdrantMCP.insert_vectors (pvectors.getD []) (pmetadata.getD (some []))

/-! ## Quantized-hash fallback (`src/openai_compatible_api.py:42-65`)

`get_fallback_embeddings(text)` computes `hashlib.md5(text.encode()).hexdigest()`
and builds a 2560-float vector from it.  The digest is abstracted as a
function `String → List (Fin 16)` (its 32 lowercase hex characters, as
values); all arithmetic on this path is exact in `ℚ` (Python float division
of numbers of this size is exact-value-representable only approximately, but
every value produced here is a dyadic-free rational `b/127.5 - 1` computed
once from an integer `b < 256`; the model uses the exact rational, which is
the standard idealization and does not affect which component equals `-1.0`,
since `-1.0` arises exactly as `0/127.5 - 1.0` in IEEE too). -/

/-- Python `int(hex_slice, 16)` on a list of hex characters. -/
def hexToNat (l : List (Fin 16)) : Nat :=
  l.foldl (fun a c => 16 * a + c.val) 0

/-- The byte-to-component map `byte / 127.5 - 1.0` (openai_compatible_api.py:60-63). -/
def byteToComp (b : Nat) : ℚ :=
  (b : ℚ) / 127.5 - 1.0

/-- One iteration of the loop at openai_compatible_api.py:51-64 for loop
index `i`: the window `hex_digest[i:i+8]`, zero-character-padded on the right
when fewer than 8 characters remain (`hex_digest[i:] + "0" * (8 - (len(hex_digest) - i))`,
with Python's negative-length slice conventions), then the four bytes of the
32-bit value, each mapped to `[-1, 1]`.  (`int(hex_slice, 16)` cannot raise
`ValueError` here because the slice is never empty and contains only hex
characters, so the `except ValueError: hash_val = 0` branch is unreachable.) -/
def fallbackBlock (hex_digest : List (Fin 16)) (i : Nat) : List ℚ :=
  let hex_slice :=
    if i + 8 ≤ hex_digest.length then (hex_digest.drop i).take 8
    else (hex_digest.drop i)
      ++ List.replicate (((8 : ℤ) - ((hex_digest.length : ℤ) - (i : ℤ))).toNat) (0 : Fin 16)
  let hash_val := hexToNat hex_slice
  [byteToComp ((hash_val >>> 24) &&& 0xFF),
   byteToComp ((hash_val >>> 16) &&& 0xFF),
   byteToComp ((hash_val >>> 8) &&& 0xFF),
   byteToComp (hash_val &&& 0xFF)]

/-- The body of `get_fallback_embeddings` as a function of the digest:
`for i in range(0, 2560, 4)` appends `fallbackBlock` for `i = 4k`,
`k = 0..639`, and the result is sliced to `[:2560]`. -/
def fallbackEmbedOfDigest (hex_digest : List (Fin 16)) : List ℚ :=
  (((List.range 640).map (fun k => fallbackBlock hex_digest (4 * k))).flatten).take 2560

/-- `get_fallback_embeddings` (openai_compatible_api.py:42-65), with the MD5
hex digest of the text abstracted as `md5hex`. -/
def get_fallback_embeddings (md5hex : String → List (Fin 16)) (text : String) : List ℚ :=
  fallbackEmbedOfDigest (md5hex text)

/-- Modelled from the spec for the refinement check of claim C7: the same
construction but with the windows "recycled/cyclically padded when the digest
is exhausted" — window character `i + j` is read cyclically from the digest.
This definition follows the claim's words, not the source; compare with
`fallbackBlock`, which zero-pads. -/
def fallbackBlockCyclic (hex_digest : List (Fin 16)) (i : Nat) : List ℚ :=
  let hex_slice := (List.range 8).map (fun j => hex_digest.getD ((i + j) % hex_digest.length) 0)
  let hash_val := hexToNat hex_slice
  [byteToComp ((hash_val >>> 24) &&& 0xFF),
   byteToComp ((hash_val >>> 16) &&& 0xFF),
   byteToComp ((hash_val >>> 8) &&& 0xFF),
   byteToComp (hash_val &&& 0xFF)]

/-- Modelled from the spec (claim C7's reading): the whole vector with
cyclically recycled windows. -/
def fallbackEmbedCyclic (hex_digest : List (Fin 16)) : List ℚ :=
  (((List.range 640).map (fun k => fallbackBlockCyclic hex_digest (4 * k))).flatten).take 2560

/-! ## Embedding service (`src/embedding_service.py`)

Vector components on this path are modelled as `ℝ` (the normalization
divides by an L2 norm, a square root).  The single observable deviation of
IEEE arithmetic from `ℝ` in this code — dividing by a norm that is exactly
zero — is captured by `PFloat`: `np.ndarray` division of a finite float `x`
by `0.0` yields `nan` when `x = 0` and a signed infinity otherwise (numpy
emits a RuntimeWarning, not an exception). -/

/-- A float value as produced by the normalization step: either a finite
real, or one of the IEEE non-finite results of dividing by zero. -/
inductive PFloat where
  | num (x : ℝ)
  | nan
  | inf
  | ninf

/-- IEEE division of a finite float `x` by a finite float `n`, for the
normalization `vector / np.linalg.norm(vector)`. -/
noncomputable def fdiv (x n : ℝ) : PFloat :=
  if n = 0 then (if x = 0 then .nan else if 0 < x then .inf else .ninf)
  else .num (x / n)

/-- Sum of squares of a vector, `np.linalg.norm(v) ** 2`. -/
def sumsq (v : List ℝ) : ℝ :=
  (v.map (fun x => x ^ 2)).sum

/-- `vector / np.linalg.norm(vector)` — the unguarded element-wise division
used at embedding_service.py:109 and embedding_service.py:226-227.  There is
no zero-norm branch in the source; the division is performed unconditionally. -/
noncomputable def l2normalize (v : List ℝ) : List PFloat :=
  v.map (fun x => fdiv x (Real.sqrt (sumsq v)))

/-- `deterministic_embedding` (embedding_service.py:96-111).

* `md5hex` abstracts `hashlib.md5(text.encode('utf-8')).hexdigest()` (the
  cryptographic digest of the UTF-8 encoding, as 32 hex characters);
* the seed is `int(hexdigest[:8], 16)` — the first 8 hex characters;
* `np.random.seed(seed)` overwrites the global numpy RNG state, which is
  threaded here explicitly as the `rng : Nat` argument and result:
  `normalSample seed d` abstracts the `d` draws `np.random.normal(0, 0.1, d)`
  made from the freshly seeded state (the distribution parameters are not
  modelled; only that the draw is a function of seed and count), and
  `nextState seed d` the global state those draws leave behind.  The incoming
  state `rng` is discarded by the reseed, which is what makes the function a
  pure function of `text` and `dimension`;
* the drawn vector is L2-normalized by the unguarded division `l2normalize`. -/
noncomputable def deterministic_embedding
    (md5hex : String → List (Fin 16)) (normalSample : Nat → Nat → List ℝ)
    (nextState : Nat → Nat → Nat) (rng : Nat)
    (text : String) (dimension : Nat) : List PFloat × Nat :=
  let seed := hexToNat ((md5hex text).take 8)
  let vector := normalSample seed dimension
  (l2normalize vector, nextState seed dimension)

/-- The three ways the try-body of `get_embeddings` can go, determined by the
Ollama HTTP interaction (embedding_service.py:194-208):
`ok v` — status 200 and the JSON body has an `"embedding"` field holding `v`;
`reqError` — `requests.exceptions.RequestException` (connection failure,
timeout, or a non-2xx status via `raise_for_status`), caught at line 236;
`noEmbedding` — a JSON body without an `"embedding"` field, whose
`raise Exception(...)` at line 208 is caught by the generic handler at
line 241 (which also catches any other non-request exception). -/
inductive BackendResult where
  | ok (v : List ℝ)
  | reqError
  | noEmbedding

/-- `get_embeddings` (embedding_service.py:179-245).

* Lines 183-184: if `model_type != "ollama_qwen3"` the function raises
  `HTTPException(status_code=503, ...)` before entering the try block —
  modelled as `Except.error 503`.
* Lines 213-218: the backend vector is truncated to `target_dim`
  (`QWEN3_EMBEDDING_DIM`) if longer, zero-padded if shorter.
* Lines 225-228: the reconciled vector is divided by its L2 norm
  (unguarded) — only on the success path.
* Lines 236-245: on either exception the function returns
  `deterministic_embedding(text, 2560)` directly — hard-coded dimension
  2560, no reconciliation and no second normalization applied.
* The `else` arm at lines 220-223 is unreachable (its guard contradicts the
  check at line 183) and is omitted. -/
noncomputable def get_embeddings (model_type : String) (target_dim : Nat)
    (backend : BackendResult)
    (md5hex : String → List (Fin 16)) (normalSample : Nat → Nat → List ℝ)
    (nextState : Nat → Nat → Nat) (rng : Nat)
    (text : String) : Except Nat (List PFloat) :=
  if model_type ≠ "ollama_qwen3" then .error 503
  else
    match backend with
    | .ok embedding_vector =>
      let ev :=
        if embedding_vector.length > target_dim then embedding_vector.take target_dim
        else if embedding_vector.length < target_dim then
          embedding_vector ++ List.replicate (target_dim - embedding_vector.length) 0
        else embedding_vector
      .ok (l2normalize ev)
    | .reqError =>
      .ok (deterministic_embedding md5hex normalSample nextState rng text 2560).1
    | .noEmbedding =>
      .ok (deterministic_embedding md5hex normalSample nextState rng text 2560).1

/-- The `/embed` response body fields the model tracks
(embedding_service.py:300-305); `model` and `processing_time_ms` are
environment/clock dependent and outside the model. -/
structure EmbedResponse where
  embedding : List PFloat
  dimension : Nat

/-- `create_embedding`, the `/embed` endpoint handler
(embedding_service.py:288-309): calls `get_embeddings`; any exception —
including the `HTTPException(503)` raised for a not-ready backend — is
caught by `except Exception` and re-raised as `HTTPException(status_code=500, ...)`,
so the HTTP caller receives a 500 response (`Except.error 500`); otherwise
the response reports `dimension = len(embedding)`. -/
noncomputable def create_embedding (model_type : String) (target_dim : Nat)
    (backend : BackendResult)
    (md5hex : String → List (Fin 16)) (normalSample : Nat → Nat → List ℝ)
    (nextState : Nat → Nat → Nat) (rng : Nat)
    (text : String) : Except Nat EmbedResponse :=
  match get_embeddings model_type target_dim backend md5hex normalSample nextState rng text with
  | .ok embedding => .ok { embedding := embedding, dimension := embedding.length }
  | .error _ => .error 500

/-! ### Concrete instantiations of the abstract hash / sampler parameters,
used by the closed counterexample and witness theorems. -/

/-- A concrete digest function: every text hashes to 32 zero hex characters. -/
def zeroDigest : String → List (Fin 16) := fun _ => List.replicate 32 0

/-- A concrete sampler: `n` draws, all zero (the zero-norm draw the spec
itself flags as possible). -/
def zeroSample : Nat → Nat → List ℝ := fun _ n => List.replicate n 0

/-- A concrete RNG successor state. -/
def zeroNext : Nat → Nat → Nat := fun _ _ => 0

/-! ## Theorems -/

/-- Claim C4: the deterministic fallback generator is a pure function of its
inputs — identical text and dimension yield bit-identical vectors on repeated
calls.  The global numpy RNG state is threaded explicitly (`s1`, `s2`); the
first conjunct states that the produced vector does not depend on the
incoming global state (because `np.random.seed(seed)` overwrites it with a
seed derived only from the text), the second that an immediate second call —
starting from whatever state the first call left — returns the same vector,
and the third exhibits the claimed structure: the vector is the L2-normalized
image of the `dimension` samples drawn from the generator seeded with the
integer value of the first 8 hex characters of the digest of the text. -/
theorem C4_deterministic_fallback_pure
    (md5hex : String → List (Fin 16)) (normalSample : Nat → Nat → List ℝ)
    (nextState : Nat → Nat → Nat) (s1 s2 : Nat) (text : String) (d : Nat) :
    (deterministic_embedding md5hex normalSample nextState s1 text d).1 =
      (deterministic_embedding md5hex normalSample nextState s2 text d).1 ∧
    (deterministic_embedding md5hex normalSample nextState
        (deterministic_embedding md5hex normalSample nextState s1 text d).2 text d).1 =
      (deterministic_embedding md5hex normalSample nextState s1 text d).1 ∧
    (deterministic_embedding md5hex normalSample nextState s1 text d).1 =
      l2normalize (normalSample (hexToNat ((md5hex text).take 8)) d) :=
  ⟨rfl, rfl, rfl⟩

/-- Claim C8: `insert_vectors` with no identifiers supplied assigns sequential
integer ids starting at 1 (the i-th vector gets id `i + 1` positionally), and
with `metadata = None` every vector is paired with the empty mapping. -/
theorem C8_insert_sequential_ids (vectors : List (List ℚ)) (i : Nat)
    (h : i < vectors.length) :
    (QdrantMCP.insert_vectors vectors none).points.length = vectors.length ∧
    (QdrantMCP.insert_vectors vectors none).points[i]? =
      some { id := i + 1, vector := vectors.get ⟨i, h⟩, payload := [] } := by
  have hlen : (QdrantMCP.insert_vectors vectors none).points.length = vectors.length := by
    simp [QdrantMCP.insert_vectors]
  refine ⟨hlen, ?_⟩
  have hp : i < (QdrantMCP.insert_vectors vectors none).points.length := hlen ▸ h
  rw [List.getElem?_eq_getElem hp]
  simp [QdrantMCP.insert_vectors, List.getElem_map, List.getElem_enum,
    List.getElem_zip, List.getElem_replicate]

/-- Witness for C8, the concrete scenario of the claim:
`insertVectors([[0.1, 0.2]], None)` assigns id 1 to the single point and
pairs it with the empty metadata mapping. -/
theorem C8_witness :
    (0 : Nat) < ([[(0.1 : ℚ), 0.2]] : List (List ℚ)).length ∧
    (QdrantMCP.insert_vectors [[(0.1 : ℚ), 0.2]] none).points.length = 1 ∧
    (QdrantMCP.insert_vectors [[(0.1 : ℚ), 0.2]] none).points[0]? =
      some { id := 1, vector := [(0.1 : ℚ), 0.2], payload := [] } := by
  have h0 : (0 : Nat) < ([[(0.1 : ℚ), 0.2]] : List (List ℚ)).length := by simp
  have h := C8_insert_sequential_ids [[(0.1 : ℚ), 0.2]] 0 h0
  exact ⟨h0, h.1, by simpa using h.2⟩

/-- Claim C9: when the RPC request omits the `metadata` parameter the
dispatcher passes the empty list (not `None`), so the zip of vectors with
metadata is empty, zero points are sent, and yet the response reports
`inserted_count` equal to the number of vectors; in general the number of
points sent is the length of the shorter of the two lists while
`inserted_count` always equals the vector count. -/
theorem C9_omitted_metadata_empty_points (vectors : List (List ℚ))
    (md : List (List (String × JValue))) :
    (QdrantMCP.dispatch_insert (some vectors) none).points = [] ∧
    (QdrantMCP.dispatch_insert (some vectors) none).inserted_count = vectors.length ∧
    (QdrantMCP.insert_vectors vectors (some md)).points.length =
      min vectors.length md.length ∧
    (QdrantMCP.insert_vectors vectors (some md)).inserted_count = vectors.length := by
  refine ⟨?_, rfl, ?_, rfl⟩
  · simp [QdrantMCP.dispatch_insert, QdrantMCP.insert_vectors, List.zip_nil_right]
  · simp [QdrantMCP.insert_vectors]

/-- A concrete parse function for witnesses: only the line `"req"` is valid
JSON (an empty object); every other line fails to parse. -/
def parse0 : String → Option JValue :=
  fun l => if l = "req" then some (.obj []) else none

/-- Concrete qdrant handler outcomes for witnesses: every try-body succeeds
with `null`. -/
def oq0 : QdrantMCP.Outcomes :=
  { health := .ok .null, collections := .ok .null,
    createCollection := fun _ => .ok .null,
    insertVectors := fun _ _ => .ok .null,
    search := fun _ _ => .ok .null,
    collectionsInfo := .ok .null }

/-- Concrete localai handler outcomes for witnesses. -/
def ol0 : LocalAIMCP.Outcomes :=
  { health := .ok .null, generate := fun _ => .ok .null,
    generateSingle := fun _ => .ok .null, models := .ok .null }

/-- Claim C5: an input line that is not valid JSON is silently discarded by
the dispatcher loop — no output line is emitted for it and the loop
continues; a valid request sent immediately after still receives its
response; and this holds for both dispatcher instances.  (`bad ≠ ""` records
that the line came from `readline` mid-stream: the empty string is the EOF
sentinel, and a blank line still carries its newline.) -/
theorem C5_malformed_line_skipped
    (parse : String → Option JValue) (oq : QdrantMCP.Outcomes)
    (ol : LocalAIMCP.Outcomes) (bad : String) (rest : List String)
    (hbad : parse bad = none) (hne : bad ≠ "") :
    qdrant_main parse oq (bad :: rest) = qdrant_main parse oq rest ∧
    localai_main parse ol (bad :: rest) = localai_main parse ol rest ∧
    ∀ (good : String) (fields : List (String × JValue)),
      parse good = some (.obj fields) → good ≠ "" →
      qdrant_main parse oq (bad :: good :: rest) =
        JValue.obj [("jsonrpc", .str "2.0"), ("id", jget fields "id" .null),
          ("result", QdrantMCP.handle_request oq (jget fields "method" (.str ""))
            (jget fields "params" (.obj [])))] :: qdrant_main parse oq rest ∧
      localai_main parse ol (bad :: good :: rest) =
        JValue.obj [("jsonrpc", .str "2.0"), ("id", jget fields "id" .null),
          ("result", LocalAIMCP.handle_request ol (jget fields "method" (.str ""))
            (jget fields "params" (.obj [])))] :: localai_main parse ol rest := by
  refine ⟨?_, ?_, ?_⟩
  · simp [qdrant_main, mcpMainLoop, hbad, hne]
  · simp [localai_main, mcpMainLoop, hbad, hne]
  · intro good fields hgood hgne
    constructor
    · simp [qdrant_main, mcpMainLoop, hbad, hne, hgood, hgne]
    · simp [localai_main, mcpMainLoop, hbad, hne, hgood, hgne]

/-- Witness for C5: with `parse0`, the garbage line `"x"` produces no output
and the valid request `"req"` right after it still receives its response, on
both dispatchers. -/
theorem C5_witness :
    qdrant_main parse0 oq0 ["x", "req"] =
      [JValue.obj [("jsonrpc", .str "2.0"), ("id", jget [] "id" .null),
        ("result", QdrantMCP.handle_request oq0 (jget [] "method" (.str ""))
          (jget [] "params" (.obj [])))]] ∧
    localai_main parse0 ol0 ["x", "req"] =
      [JValue.obj [("jsonrpc", .str "2.0"), ("id", jget [] "id" .null),
        ("result", LocalAIMCP.handle_request ol0 (jget [] "method" (.str ""))
          (jget [] "params" (.obj [])))]] := by
  have h := C5_malformed_line_skipped parse0 oq0 ol0 "x" []
    (by simp [parse0]) (by simp)
  have h2 := h.2.2 "req" [] (by simp [parse0]) (by simp)
  exact ⟨by simpa [qdrant_main, mcpMainLoop] using h2.1,
         by simpa [localai_main, mcpMainLoop] using h2.2⟩

/-- Claim C6: a method name absent from the dispatch table yields a result of
`{"error": "Unknown method: <method>"}` (shown for both dispatchers), and an
exception raised inside a registered handler is caught and converted to an
`error` field of the response — shown for a representative handler of each
dispatcher, with the loop emitting the response and continuing rather than
terminating.  In the source, each registered handler's own try/except
converts its exceptions to an `{'error': <prefixed message>}` result, and the
dispatch-boundary try/except of `handle_request` converts anything else
(e.g. argument extraction on a non-dict `params`) to `{'error': str(e)}`. -/
theorem C6_unknown_method_and_handler_errors
    (oq : QdrantMCP.Outcomes) (ol : LocalAIMCP.Outcomes) (params : JValue)
    (m e : String) (parse : String → Option JValue) (rest : List String)
    (good : String) (fields : List (String × JValue)) :
    (m ∉ QdrantMCP.methodNames →
      QdrantMCP.handle_request oq (.str m) params =
        .obj [("error", .str ("Unknown method: " ++ m))]) ∧
    (m ∉ LocalAIMCP.methodNames →
      LocalAIMCP.handle_request ol (.str m) params =
        .obj [("error", .str ("Unknown method: " ++ m))]) ∧
    (QdrantMCP.handle_request { oq with health := .error e }
        (.str "qdrant_health") params =
      .obj [("error", .str ("Health check failed: " ++ e))]) ∧
    (QdrantMCP.handle_request { oq with insertVectors := fun _ _ => .error e }
        (.str "qdrant_insert_vectors") (.obj []) =
      .obj [("error", .str ("Insert vectors failed: " ++ e))]) ∧
    (LocalAIMCP.handle_request { ol with generate := fun _ => .error e }
        (.str "embedding_generate") (.obj []) =
      .obj [("error", .str ("Generate embeddings failed: " ++ e))]) ∧
    (parse good = some (.obj fields) → good ≠ "" →
      qdrant_main parse { oq with health := .error e } (good :: rest) =
        JValue.obj [("jsonrpc", .str "2.0"), ("id", jget fields "id" .null),
          ("result", QdrantMCP.handle_request { oq with health := .error e }
            (jget fields "method" (.str "")) (jget fields "params" (.obj [])))]
          :: qdrant_main parse { oq with health := .error e } rest) := by
  refine ⟨?_, ?_, ?_, ?_, ?_, ?_⟩
  · intro hm
    simp only [QdrantMCP.methodNames, List.mem_cons, List.not_mem_nil, or_false,
      not_or] at hm
    obtain ⟨h1, h2, h3, h4, h5, h6⟩ := hm
    simp [QdrantMCP.handle_request, pyCatch, pure, Except.pure, h1, h2, h3, h4, h5, h6]
  · intro hm
    simp only [LocalAIMCP.methodNames, List.mem_cons, List.not_mem_nil, or_false,
      not_or] at hm
    obtain ⟨h1, h2, h3, h4⟩ := hm
    simp [LocalAIMCP.handle_request, pyCatch, pure, Except.pure, h1, h2, h3, h4]
  · simp [QdrantMCP.handle_request, QdrantMCP.health_check, pyTry, pyCatch, pure, Except.pure]
  · simp [QdrantMCP.handle_request, QdrantMCP.insert_vectors_rpc, pyTry, pyCatch,
      pyGet, jget, pure, Except.pure, bind, Except.bind]
  · simp [LocalAIMCP.handle_request, LocalAIMCP.generate_embeddings, pyTry, pyCatch,
      pyGet, jget, pure, Except.pure, bind, Except.bind]
  · intro hgood hgne
    simp [qdrant_main, mcpMainLoop, hgood, hgne]

/-- Witness for C6: the unknown method `"bogus"` on both dispatchers, a
raising health handler on the qdrant dispatcher, and the loop continuing
after the erroring request. -/
theorem C6_witness :
    ("bogus" ∉ QdrantMCP.methodNames) ∧
    ("bogus" ∉ LocalAIMCP.methodNames) ∧
    QdrantMCP.handle_request oq0 (.str "bogus") (.obj []) =
      .obj [("error", .str ("Unknown method: " ++ "bogus"))] ∧
    LocalAIMCP.handle_request ol0 (.str "bogus") (.obj []) =
      .obj [("error", .str ("Unknown method: " ++ "bogus"))] ∧
    QdrantMCP.handle_request { oq0 with health := .error "boom" }
        (.str "qdrant_health") (.obj []) =
      .obj [("error", .str ("Health check failed: " ++ "boom"))] ∧
    qdrant_main parse0 { oq0 with health := .error "boom" } ["req"] =
      [JValue.obj [("jsonrpc", .str "2.0"), ("id", jget [] "id" .null),
        ("result", QdrantMCP.handle_request { oq0 with health := .error "boom" }
          (jget [] "method" (.str "")) (jget [] "params" (.obj [])))]] := by
  have h := C6_unknown_method_and_handler_errors oq0 ol0 (.obj []) "bogus" "boom"
    parse0 [] "req" []
  refine ⟨by decide, by decide, h.1 (by decide), h.2.1 (by decide), h.2.2.1, ?_⟩
  have h6 := h.2.2.2.2.2 (by simp [parse0]) (by simp)
  simpa [qdrant_main, mcpMainLoop] using h6

/-! ### Helper lemmas for the quantized-hash fallback -/

lemma foldl_hex_replicate_zero : ∀ (k a : Nat),
    ((List.replicate k (0 : Fin 16)).foldl (fun a c => 16 * a + c.val) a) = a * 16 ^ k := by
  intro k
  induction k with
  | zero => intro a; simp
  | succ k ih =>
    intro a
    rw [List.replicate_succ, List.foldl_cons, ih]
    simp only [Fin.val_zero, Nat.add_zero]
    ring

lemma hexToNat_replicate_zero (k : Nat) :
    hexToNat (List.replicate k (0 : Fin 16)) = 0 := by
  unfold hexToNat
  rw [foldl_hex_replicate_zero]
  simp

lemma hexToNat_append_zeros (l : List (Fin 16)) (k : Nat) :
    hexToNat (l ++ List.replicate k (0 : Fin 16)) = hexToNat l * 16 ^ k := by
  unfold hexToNat
  rw [List.foldl_append]
  exact foldl_hex_replicate_zero k _

lemma byteToComp_zero : byteToComp 0 = -1 := by
  unfold byteToComp
  norm_num

lemma byteToComp_bounds (b : Nat) (hb : b ≤ 255) :
    -1 ≤ byteToComp b ∧ byteToComp b ≤ 1 := by
  unfold byteToComp
  constructor
  · have h0 : (0 : ℚ) ≤ (b : ℚ) / 127.5 := by positivity
    linarith
  · have hble : (b : ℚ) ≤ 255 := by exact_mod_cast hb
    have h1 : (b : ℚ) / 127.5 ≤ 255 / 127.5 :=
      (div_le_div_iff_of_pos_right (by norm_num)).mpr hble
    have h2 : (255 : ℚ) / 127.5 = 2 := by norm_num
    linarith

lemma fallbackBlock_length (d : List (Fin 16)) (i : Nat) :
    (fallbackBlock d i).length = 4 := rfl

lemma flattenBlocks_length (blk : Nat → List ℚ) (h4 : ∀ k, (blk k).length = 4) :
    ∀ n, (((List.range n).map blk).flatten).length = 4 * n := by
  intro n
  induction n with
  | zero => simp
  | succ n ih =>
    rw [List.range_succ, List.map_append, List.flatten_append]
    simp only [List.length_append, ih, List.map_cons, List.map_nil,
      List.flatten_cons, List.flatten_nil, List.append_nil, h4]
    omega

lemma flattenBlocks_getElem (blk : Nat → List ℚ) (h4 : ∀ k, (blk k).length = 4) :
    ∀ (n m : Nat), m < 4 * n →
      (((List.range n).map blk).flatten)[m]? = (blk (m / 4))[m % 4]? := by
  intro n
  induction n with
  | zero => intro m hm; omega
  | succ n ih =>
    intro m hm
    rw [List.range_succ, List.map_append, List.flatten_append]
    by_cases hc : m < 4 * n
    · rw [List.getElem?_append_left (by rw [flattenBlocks_length blk h4]; exact hc)]
      exact ih m hc
    · have hlen := flattenBlocks_length blk h4 n
      rw [List.getElem?_append_right (by rw [hlen]; omega)]
      rw [hlen]
      simp only [List.map_cons, List.map_nil, List.flatten_cons, List.flatten_nil,
        List.append_nil]
      have hdiv : m / 4 = n := by omega
      have hmod : m % 4 = m - 4 * n := by omega
      rw [hdiv, hmod]

lemma fallbackBlock_pad (d : List (Fin 16)) (i : Nat) (h : d.length ≤ i) :
    fallbackBlock d i = [-1, -1, -1, -1] := by
  have h1 : ¬ (i + 8 ≤ d.length) := by omega
  have h2 : d.drop i = [] := List.drop_eq_nil_of_le h
  simp only [fallbackBlock, if_neg h1, h2, List.nil_append, hexToNat_replicate_zero,
    Nat.zero_shiftRight, Nat.zero_and, byteToComp_zero]

lemma fallbackBlock_28 (d : List (Fin 16)) (h : d.length = 32) :
    ∃ q0 q1 : ℚ, fallbackBlock d 28 = [q0, q1, -1, -1] := by
  have h1 : ¬ (28 + 8 ≤ d.length) := by omega
  have hpad : (((8 : ℤ) - ((d.length : ℤ) - ((28 : Nat) : ℤ))).toNat) = 4 := by
    rw [h]; decide
  have hshift8 : (hexToNat (d.drop 28) * 65536) >>> 8 = hexToNat (d.drop 28) * 256 := by
    rw [Nat.shiftRight_eq_div_pow]
    show hexToNat (d.drop 28) * 65536 / 256 = _
    rw [show (65536 : Nat) = 256 * 256 from by norm_num, ← Nat.mul_assoc]
    exact Nat.mul_div_cancel _ (by norm_num)
  have hand8 : hexToNat (d.drop 28) * 256 &&& 255 = 0 := by
    rw [show (255 : Nat) = 2 ^ 8 - 1 from by norm_num, Nat.and_pow_two_sub_one_eq_mod]
    show hexToNat (d.drop 28) * 256 % 256 = 0
    exact Nat.mul_mod_left _ _
  have hand0 : hexToNat (d.drop 28) * 65536 &&& 255 = 0 := by
    rw [show (255 : Nat) = 2 ^ 8 - 1 from by norm_num, Nat.and_pow_two_sub_one_eq_mod]
    show hexToNat (d.drop 28) * 65536 % 256 = 0
    rw [show hexToNat (d.drop 28) * 65536 = (hexToNat (d.drop 28) * 256) * 256 from by ring]
    exact Nat.mul_mod_left _ _
  have hb : fallbackBlock d 28 =
      [byteToComp ((hexToNat (d.drop 28) * 65536) >>> 24 &&& 255),
       byteToComp ((hexToNat (d.drop 28) * 65536) >>> 16 &&& 255), -1, -1] := by
    simp only [fallbackBlock, if_neg h1, hpad]
    rw [hexToNat_append_zeros]
    have e16 : (16 : Nat) ^ 4 = 65536 := by norm_num
    rw [e16, hshift8, hand8, hand0, byteToComp_zero]
  exact ⟨_, _, hb⟩

/-- Claim C10: every component of the quantized-hash fallback vector at index
30 through 2559 equals exactly `-1.0`: the 32-hex-character digest reaches
only the first 30 components, the two bytes of block 7 beyond the digest and
all of blocks 8-639 come from zero padding, and a zero byte maps to
`0 / 127.5 - 1.0 = -1.0`.  Consequently any two texts' fallback vectors agree
on those 2530 components. -/
theorem C10_constant_tail (md5hex : String → List (Fin 16)) (text : String)
    (hlen : (md5hex text).length = 32) (m : Nat) (h30 : 30 ≤ m) (hm : m < 2560) :
    (get_fallback_embeddings md5hex text)[m]? = some (-1) := by
  have h4 : ∀ k, (fallbackBlock (md5hex text) (4 * k)).length = 4 :=
    fun k => fallbackBlock_length _ _
  unfold get_fallback_embeddings fallbackEmbedOfDigest
  rw [List.getElem?_take_of_lt hm]
  rw [flattenBlocks_getElem _ h4 640 m (by omega)]
  by_cases hc : 32 ≤ m
  · have hge : (md5hex text).length ≤ 4 * (m / 4) := by rw [hlen]; omega
    rw [fallbackBlock_pad _ _ hge]
    have : m % 4 = 0 ∨ m % 4 = 1 ∨ m % 4 = 2 ∨ m % 4 = 3 := by omega
    rcases this with h | h | h | h <;> rw [h] <;> rfl
  · have hm7 : m / 4 = 7 := by omega
    have hmod : m % 4 = 2 ∨ m % 4 = 3 := by omega
    obtain ⟨q0, q1, hq⟩ := fallbackBlock_28 (md5hex text) hlen
    rw [hm7, show 4 * 7 = 28 from rfl, hq]
    rcases hmod with h | h <;> rw [h] <;> rfl

/-- Witness for C10 at the concrete all-zero digest and index 30. -/
theorem C10_witness :
    (zeroDigest "w").length = 32 ∧ (30 : Nat) ≤ 30 ∧ (30 : Nat) < 2560 ∧
    (get_fallback_embeddings zeroDigest "w")[30]? = some ((-1 : ℚ)) :=
  ⟨by simp [zeroDigest], le_rfl, by norm_num,
   C10_constant_tail zeroDigest "w" (by simp [zeroDigest]) 30 le_rfl (by norm_num)⟩

/-- A concrete digest function for the C7 counterexample: every text hashes
to 32 `f` hex characters. -/
def allFDigest : String → List (Fin 16) := fun _ => List.replicate 32 15

/-- Counterexample for claim C7: the claim describes the windows as
"recycled/cyclically padded when the digest is exhausted", but the source
pads exhausted windows with `"0"` characters (`hex_digest[i:] + "0" * ...`)
and never recycles the digest.  At index 32 (loop index `i = 32`, the first
window entirely past the 32-character digest) the code yields the zero-byte
component `-1`, whereas the cyclic-recycling reading of the claim
(`fallbackEmbedCyclic`, built from the claim's words) yields the digest's
first byte `0xff ↦ 1` for an all-`f` digest; the two disagree. -/
theorem C7_counterexample :
    (get_fallback_embeddings allFDigest "t")[32]? = some ((-1 : ℚ)) ∧
    (fallbackEmbedCyclic (allFDigest "t"))[32]? = some ((1 : ℚ)) ∧
    ((-1 : ℚ) ≠ 1) := by
  have hcode : (get_fallback_embeddings allFDigest "t")[32]? = some ((-1 : ℚ)) := by
    have h4 : ∀ k, (fallbackBlock (allFDigest "t") (4 * k)).length = 4 :=
      fun k => fallbackBlock_length _ _
    unfold get_fallback_embeddings fallbackEmbedOfDigest
    rw [List.getElem?_take_of_lt (by norm_num)]
    rw [flattenBlocks_getElem _ h4 640 32 (by norm_num)]
    norm_num
    rw [fallbackBlock_pad _ _ (by simp [allFDigest])]
    rfl
  have hcyc : (fallbackEmbedCyclic (allFDigest "t"))[32]? = some ((1 : ℚ)) := by
    have h4 : ∀ k, (fallbackBlockCyclic (allFDigest "t") (4 * k)).length = 4 :=
      fun _ => rfl
    unfold fallbackEmbedCyclic
    rw [List.getElem?_take_of_lt (by norm_num)]
    rw [flattenBlocks_getElem _ h4 640 32 (by norm_num)]
    norm_num
    have hblock : fallbackBlockCyclic (allFDigest "t") 32 =
        [byteToComp 255, byteToComp 255, byteToComp 255, byteToComp 255] := by
      simp only [fallbackBlockCyclic]
      rw [show (List.range 8).map
            (fun j => (allFDigest "t").getD ((32 + j) % (allFDigest "t").length) 0) =
          List.replicate 8 15 from by decide]
      rw [show hexToNat (List.replicate 8 15) = 4294967295 from by decide]
      rw [show (4294967295 : Nat) >>> 24 &&& 255 = 255 from by decide,
          show (4294967295 : Nat) >>> 16 &&& 255 = 255 from by decide,
          show (4294967295 : Nat) >>> 8 &&& 255 = 255 from by decide,
          show (4294967295 : Nat) &&& 255 = 255 from by decide]
    rw [hblock, show byteToComp 255 = 1 from by norm_num [byteToComp]]
    rfl
  exact ⟨hcode, hcyc, by norm_num⟩

/-- Claim C7 as amended: the quantized-hash fallback returns, for every
input text, a vector of exactly 2560 float components, each lying in
`[-1, 1]` and obtained by mapping a byte of the digest-derived 32-bit value
via `byte/127.5 - 1.0`, with each 4-float block derived from successive
8-hex-character windows of the digest, **zero-padded** (with `"0"` hex
characters, not cyclically recycled) when the digest is exhausted — a fully
padded window therefore yields the all-`-1` block. -/
theorem C7_amended_quantized_hash (md5hex : String → List (Fin 16)) (text : String) :
    (get_fallback_embeddings md5hex text).length = 2560 ∧
    (∀ x ∈ get_fallback_embeddings md5hex text, -1 ≤ x ∧ x ≤ 1) ∧
    (∀ i, (md5hex text).length ≤ i →
      fallbackBlock (md5hex text) i = [-1, -1, -1, -1]) := by
  have h4 : ∀ k, (fallbackBlock (md5hex text) (4 * k)).length = 4 :=
    fun k => fallbackBlock_length _ _
  refine ⟨?_, ?_, fun i hi => fallbackBlock_pad _ _ hi⟩
  · unfold get_fallback_embeddings fallbackEmbedOfDigest
    rw [List.length_take, flattenBlocks_length _ h4 640]
    norm_num
  · intro x hx
    unfold get_fallback_embeddings fallbackEmbedOfDigest at hx
    have hx2 := List.mem_of_mem_take hx
    rw [List.mem_flatten] at hx2
    obtain ⟨blk, hblk, hxblk⟩ := hx2
    rw [List.mem_map] at hblk
    obtain ⟨k, _, rfl⟩ := hblk
    simp only [fallbackBlock, List.mem_cons, List.not_mem_nil, or_false] at hxblk
    rcases hxblk with rfl | rfl | rfl | rfl <;>
      exact byteToComp_bounds _ (Nat.and_le_right)

/-- Witness for C7: at the all-zero digest, the vector has length 2560 and
the fully padded window at loop index 32 is the all-`-1` block. -/
theorem C7_witness :
    ((zeroDigest "y").length ≤ 32) ∧
    fallbackBlock (zeroDigest "y") 32 = [-1, -1, -1, -1] ∧
    (get_fallback_embeddings zeroDigest "y").length = 2560 := by
  have h := C7_amended_quantized_hash zeroDigest "y"
  exact ⟨by simp [zeroDigest], h.2.2 32 (by simp [zeroDigest]), h.1⟩

/-! ### Helper lemmas for the normalization model -/

lemma sumsq_nonneg (v : List ℝ) : 0 ≤ sumsq v := by
  unfold sumsq
  apply List.sum_nonneg
  intro x hx
  rw [List.mem_map] at hx
  obtain ⟨y, _, rfl⟩ := hx
  positivity

lemma sumsq_cons (a : ℝ) (t : List ℝ) : sumsq (a :: t) = a ^ 2 + sumsq t := by
  simp [sumsq]

lemma sumsq_eq_zero (v : List ℝ) (h : sumsq v = 0) : ∀ x ∈ v, x = 0 := by
  induction v with
  | nil => simp
  | cons a t ih =>
    rw [sumsq_cons] at h
    have h1 : 0 ≤ a ^ 2 := sq_nonneg a
    have h2 : 0 ≤ sumsq t := sumsq_nonneg t
    have ha : a ^ 2 = 0 := by linarith
    have ht : sumsq t = 0 := by linarith
    intro x hx
    rw [List.mem_cons] at hx
    rcases hx with rfl | hx
    · exact (pow_eq_zero_iff (by norm_num)).mp ha
    · exact ih ht x hx

/-- Counterexample for claim C2: there is no zero-norm guard in the source —
`deterministic_embedding` divides by `np.linalg.norm(vector)` unconditionally
(embedding_service.py:109), so for a drawn vector of exact zero norm (the
case the spec itself flags as possible) every component is the IEEE result of
`0.0 / 0.0`, namely NaN — not the unchanged zero vector the claim describes. -/
theorem C2_counterexample :
    (deterministic_embedding zeroDigest zeroSample zeroNext 0 "x" 3).1 =
      [PFloat.nan, PFloat.nan, PFloat.nan] ∧
    [PFloat.nan, PFloat.nan, PFloat.nan] ≠
      [PFloat.num 0, PFloat.num 0, PFloat.num 0] := by
  constructor
  · rw [show (deterministic_embedding zeroDigest zeroSample zeroNext 0 "x" 3).1 =
        l2normalize [0, 0, 0] from rfl]
    unfold l2normalize
    rw [show sumsq [(0 : ℝ), 0, 0] = 0 from by simp [sumsq], Real.sqrt_zero]
    simp [fdiv]
  · simp

/-- Claim C2 as amended: the normalization used on every return path divides
unconditionally by the L2 norm (no zero-norm guard exists in the source).
When the pre-normalization sum of squares is nonzero, every component becomes
the finite value `x / ‖v‖₂` and the result is exactly unit-normalized (in
exact real arithmetic); when it is exactly zero, every component is NaN
(IEEE `0.0 / 0.0`) rather than the unchanged zero vector.  The Python
function still never raises — numpy division by zero warns and yields NaN —
which the totality of `l2normalize` reflects. -/
theorem C2_amended_unit_norm (v : List ℝ) :
    (sumsq v ≠ 0 →
      l2normalize v = v.map (fun x => PFloat.num (x / Real.sqrt (sumsq v))) ∧
      sumsq (v.map (fun x => x / Real.sqrt (sumsq v))) = 1) ∧
    (sumsq v = 0 → ∀ p ∈ l2normalize v, p = PFloat.nan) := by
  constructor
  · intro h
    have hpos : 0 < sumsq v := lt_of_le_of_ne (sumsq_nonneg v) (Ne.symm h)
    have hsq : Real.sqrt (sumsq v) ≠ 0 := ne_of_gt (Real.sqrt_pos.mpr hpos)
    constructor
    · unfold l2normalize
      apply List.map_congr_left
      intro a _
      unfold fdiv
      rw [if_neg hsq]
    · have hnn := sumsq_nonneg v
      have hcomp : sumsq (v.map fun x => x / Real.sqrt (sumsq v)) =
          (v.map fun x => x ^ 2 * (Real.sqrt (sumsq v) ^ 2)⁻¹).sum := by
        unfold sumsq
        rw [List.map_map]
        congr 1
        apply List.map_congr_left
        intro x _
        rw [Function.comp_apply, div_pow, div_eq_mul_inv]
      rw [hcomp, List.sum_map_mul_right, Real.sq_sqrt hnn]
      show sumsq v * (sumsq v)⁻¹ = 1
      exact mul_inv_cancel₀ h
  · intro h p hp
    unfold l2normalize at hp
    rw [List.mem_map] at hp
    obtain ⟨x, hx, rfl⟩ := hp
    have hx0 : x = 0 := sumsq_eq_zero v h x hx
    rw [h, Real.sqrt_zero, hx0]
    unfold fdiv
    simp

/-- Witness for C2 at the concrete vector `[3, 4]` (sum of squares 25 ≠ 0):
normalization produces finite components and an exactly unit-norm vector. -/
theorem C2_witness :
    sumsq [(3 : ℝ), 4] ≠ 0 ∧
    l2normalize [(3 : ℝ), 4] =
      [(3 : ℝ), 4].map (fun x => PFloat.num (x / Real.sqrt (sumsq [(3 : ℝ), 4]))) ∧
    sumsq ([(3 : ℝ), 4].map (fun x => x / Real.sqrt (sumsq [(3 : ℝ), 4]))) = 1 := by
  have h : sumsq [(3 : ℝ), 4] ≠ 0 := by norm_num [sumsq]
  have h2 := (C2_amended_unit_norm [(3 : ℝ), 4]).1 h
  exact ⟨h, h2.1, h2.2⟩

/-- Counterexample for claim C1: with the backend not marked ready
(`model_type` still `"sentence_transformers"`, its initial value after a
failed startup probe), `get_embeddings` raises `HTTPException(503)` before
any fallback is considered, and `create_embedding` converts it to an HTTP 500
response — the `/embed` caller receives a 5xx for a not-ready backend instead
of a fallback vector. -/
theorem C1_counterexample :
    create_embedding "sentence_transformers" 2560 .reqError zeroDigest zeroSample
      zeroNext 0 "hello" = .error 500 := rfl

/-- Claim C1 as amended: when the backend is marked ready
(`model_type = "ollama_qwen3"`) and the backend call fails — whether by a
requests-level exception or by a response without an embedding field —
resolution degrades to the deterministic fallback vector and the `/embed`
caller receives a success response carrying it; but when the backend is not
marked ready, `get_embeddings` raises `HTTPException(503)`, which
`create_embedding` converts to a 500 response: the HTTP caller does receive a
5xx for a not-ready backend. -/
theorem C1_amended_resolution (target_dim : Nat) (md5hex : String → List (Fin 16))
    (normalSample : Nat → Nat → List ℝ) (nextState : Nat → Nat → Nat)
    (rng : Nat) (text : String) (mt : String) (backend : BackendResult) :
    (create_embedding "ollama_qwen3" target_dim .reqError md5hex normalSample
        nextState rng text =
      .ok { embedding := (deterministic_embedding md5hex normalSample nextState rng text 2560).1,
            dimension := (deterministic_embedding md5hex normalSample nextState rng text 2560).1.length }) ∧
    (create_embedding "ollama_qwen3" target_dim .noEmbedding md5hex normalSample
        nextState rng text =
      .ok { embedding := (deterministic_embedding md5hex normalSample nextState rng text 2560).1,
            dimension := (deterministic_embedding md5hex normalSample nextState rng text 2560).1.length }) ∧
    (mt ≠ "ollama_qwen3" →
      create_embedding mt target_dim backend md5hex normalSample nextState rng text =
        .error 500) := by
  refine ⟨rfl, rfl, fun hmt => ?_⟩
  unfold create_embedding get_embeddings
  rw [if_pos hmt]

/-- Witness for C1 at the concrete not-ready marker `"deterministic"`. -/
theorem C1_witness :
    ("deterministic" : String) ≠ "ollama_qwen3" ∧
    create_embedding "deterministic" 2560 .reqError zeroDigest zeroSample zeroNext
      0 "t" = .error 500 := by
  have h : ("deterministic" : String) ≠ "ollama_qwen3" := by decide
  exact ⟨h, (C1_amended_resolution 2560 zeroDigest zeroSample zeroNext 0 "t"
    "deterministic" .reqError).2.2 h⟩

/-- Counterexample for claim C3: with the startup probe having recorded
target dimension 4, a failed backend call makes `get_embeddings` return the
fallback vector built with the hard-coded dimension 2560
(embedding_service.py:240,245) — no reconciliation to the target dimension is
applied on the fallback path, so the resolved vector has length 2560 ≠ 4. -/
theorem C3_counterexample :
    get_embeddings "ollama_qwen3" 4 .reqError zeroDigest zeroSample zeroNext 0 "t" =
      .ok (deterministic_embedding zeroDigest zeroSample zeroNext 0 "t" 2560).1 ∧
    (deterministic_embedding zeroDigest zeroSample zeroNext 0 "t" 2560).1.length = 2560 ∧
    (2560 : Nat) ≠ 4 := by
  refine ⟨rfl, ?_, by norm_num⟩
  show (l2normalize (zeroSample (hexToNat ((zeroDigest "t").take 8)) 2560)).length = 2560
  unfold l2normalize zeroSample
  rw [List.length_map, List.length_replicate]

/-- Claim C3 as amended: dimension reconciliation (truncate when longer, zero
pad when shorter) applies only to a successfully fetched backend vector, which
is then normalized and has exactly the target length; the fallback paths
bypass reconciliation and always produce a vector of length 2560 regardless
of the configured target dimension; and the reported `dimension` field always
equals the actual length of the returned vector (rather than the target). -/
theorem C3_amended_dimension (d : Nat) (md5hex : String → List (Fin 16))
    (normalSample : Nat → Nat → List ℝ) (nextState : Nat → Nat → Nat)
    (rng : Nat) (text : String)
    (hs : ∀ s n, (normalSample s n).length = n) :
    (∀ v : List ℝ, ∃ w, get_embeddings "ollama_qwen3" d (.ok v) md5hex normalSample
        nextState rng text = .ok w ∧ w.length = d) ∧
    (∃ w, get_embeddings "ollama_qwen3" d .reqError md5hex normalSample nextState
        rng text = .ok w ∧ w.length = 2560) ∧
    (∃ w, get_embeddings "ollama_qwen3" d .noEmbedding md5hex normalSample nextState
        rng text = .ok w ∧ w.length = 2560) ∧
    (∀ (mt : String) (backend : BackendResult) (r : EmbedResponse),
      create_embedding mt d backend md5hex normalSample nextState rng text = .ok r →
      r.dimension = r.embedding.length) := by
  refine ⟨?_, ?_, ?_, ?_⟩
  · intro v
    have he : get_embeddings "ollama_qwen3" d (.ok v) md5hex normalSample nextState
        rng text =
        .ok (l2normalize (if v.length > d then v.take d
          else if v.length < d then v ++ List.replicate (d - v.length) 0 else v)) := rfl
    refine ⟨_, he, ?_⟩
    unfold l2normalize
    rw [List.length_map]
    by_cases h1 : v.length > d
    · simp only [if_pos h1, List.length_take]
      omega
    · by_cases h2 : v.length < d
      · simp only [if_neg h1, if_pos h2, List.length_append, List.length_replicate]
        omega
      · simp only [if_neg h1, if_neg h2]
        omega
  · refine ⟨_, rfl, ?_⟩
    show (l2normalize (normalSample (hexToNat ((md5hex text).take 8)) 2560)).length = 2560
    unfold l2normalize
    rw [List.length_map, hs]
  · refine ⟨_, rfl, ?_⟩
    show (l2normalize (normalSample (hexToNat ((md5hex text).take 8)) 2560)).length = 2560
    unfold l2normalize
    rw [List.length_map, hs]
  · intro mt backend r hr
    unfold create_embedding at hr
    cases hg : get_embeddings mt d backend md5hex normalSample nextState rng text with
    | ok w =>
      rw [hg] at hr
      simp only [Except.ok.injEq] at hr
      rw [← hr]
    | error n =>
      rw [hg] at hr
      simp at hr

/-- Witness for C3 at the concrete zero sampler (which satisfies the
length-of-draw hypothesis), target dimension 7: the fallback path yields a
2560-long vector while a successful backend vector `[1, 2]` is reconciled to
length 7. -/
theorem C3_witness :
    (∃ w, get_embeddings "ollama_qwen3" 7 .reqError zeroDigest zeroSample zeroNext
        0 "q" = .ok w ∧ w.length = 2560) ∧
    (∃ w, get_embeddings "ollama_qwen3" 7 (.ok [1, 2]) zeroDigest zeroSample zeroNext
        0 "q" = .ok w ∧ w.length = 7) := by
  have hs : ∀ s n, (zeroSample s n).length = n := fun s n => List.length_replicate n 0
  have h := C3_amended_dimension 7 zeroDigest zeroSample zeroNext 0 "q" hs
  exact ⟨h.2.1, h.1 [1, 2]⟩
